import Mathlib

/-!
Verification of the AI-Tooltip browser extension core: the usage-metered
request gate (background.js / popup.js) and the hover-intent dispatcher
with its layered cache (src/content.ts).  All definitions are shallow
embeddings translated from the repository source.
-/

set_option maxRecDepth 4096

namespace AITooltip

/-- JS truthiness-based fallback `a || b` for strings (empty string is falsy). -/
def jsOr (a b : String) : String := if a = "" then b else a

/-- JS `String.prototype.trim`: strip whitespace from both ends. -/
def jsTrim (s : String) : String :=
  ⟨((s.data.dropWhile Char.isWhitespace).reverse.dropWhile Char.isWhitespace).reverse⟩

/-- JS `String.prototype.slice(0, n)`: the first `n` characters. -/
def strTake (s : String) (n : Nat) : String := ⟨s.data.take n⟩

/-- JS truthiness of an optional string attribute: present and non-empty. -/
def jsTruthy (a : Option String) : Bool :=
  match a with
  | none => false
  | some s => s ≠ ""

/-! ## Usage-metered request gate (background.js) -/

/-- Subscription plan values stored under `subscriptionStatus`
(`'free' | 'paid' | 'custom'`). -/
inductive Plan where
  | free
  | paid
  | custom
deriving DecidableEq, Repr

/-- The string the code stores / reports for a plan. -/
def Plan.toStr : Plan → String
  | .free => "free"
  | .paid => "paid"
  | .custom => "custom"

/-- The synced keyed storage read by `resolveUsageAndApiKey`:
`llmApiKey`, `freeTooltipsUsed`, `subscriptionStatus` (each possibly absent). -/
structure StorageState where
  llmApiKey : Option String
  freeTooltipsUsed : Option Nat
  subscriptionStatus : Option Plan
deriving DecidableEq, Repr

/-- `CONFIG` values read by background.js: `FREE_TIER_LIMIT` and
`DEFAULT_FREE_API_KEY` (empty string means unconfigured). -/
structure Config where
  freeTierLimit : Nat
  defaultFreeApiKey : String
deriving DecidableEq, Repr

/-- The two broker actions handled by `handleRequest`. -/
inductive Action where
  | summarizeText
  | ocrImage
deriving DecidableEq, Repr

/-- The `usageInfo` record attached to every resolution. -/
structure UsageInfo where
  plan : String
  freeTierLimit : Nat
  freeTooltipsRemaining : Nat
  freeTooltipsUsed : Nat
deriving DecidableEq, Repr

/-- Result of `resolveUsageAndApiKey`: either a proceed carrying an
optional api key, or a denial carrying the error message and the
`requiresUpgrade` flag.  Both carry `usageInfo`. -/
inductive Resolution where
  | proceed (apiKey : Option String) (usageInfo : UsageInfo)
  | deny (error : String) (requiresUpgrade : Bool) (usageInfo : UsageInfo)
deriving DecidableEq, Repr

/-- Denial message of the paid-without-key branch. -/
def subscriptionNeedsKeyMsg : String :=
  "Subscription active. Please add your personal API key in the popup to continue."

/-- Denial message of the exhausted-free-tier branch
(interpolates `FREE_TIER_LIMIT`). -/
def exhaustedMsg (limit : Nat) : String :=
  "Free tier limit of " ++ toString limit ++
    " tooltips reached. Sign in with Google to upgrade for $3/month."

/-- Denial message of the missing-fallback-credential branch. -/
def noFallbackMsg : String :=
  "Free tier unavailable. Configure a developer-managed API key locally to enable the first 100 tooltips."

/-- Shallow embedding of `resolveUsageAndApiKey` (background.js).  Returns the
resolution together with the storage state after the call (the free-tier
proceed branch persists the incremented counter before returning). -/
def resolveUsageAndApiKey (cfg : Config) (st : StorageState) (action : Action) :
    Resolution × StorageState :=
  let subscriptionStatus := st.subscriptionStatus.getD .free
  let used := st.freeTooltipsUsed.getD 0
  let remainingBeforeUse := cfg.freeTierLimit - used
  let usageInfoBase : UsageInfo :=
    ⟨subscriptionStatus.toStr, cfg.freeTierLimit, remainingBeforeUse, used⟩
  if jsTruthy st.llmApiKey then
    (.proceed st.llmApiKey
      { usageInfoBase with
          plan := if subscriptionStatus = .paid then "paid" else "custom" }, st)
  else if subscriptionStatus = .paid then
    (.deny subscriptionNeedsKeyMsg false usageInfoBase, st)
  else if cfg.freeTierLimit ≤ used then
    (.deny (exhaustedMsg cfg.freeTierLimit) true
      { usageInfoBase with freeTooltipsRemaining := 0 }, st)
  else if action = .summarizeText ∧ cfg.defaultFreeApiKey = "" then
    (.deny noFallbackMsg true usageInfoBase, st)
  else
    let newUsedCount := used + 1
    (.proceed
      (if action = .summarizeText then some cfg.defaultFreeApiKey else none)
      { usageInfoBase with
          plan := "free",
          freeTooltipsRemaining := cfg.freeTierLimit - newUsedCount,
          freeTooltipsUsed := newUsedCount },
      { st with freeTooltipsUsed := some newUsedCount })

/-- A resolution is a proceed. -/
def Resolution.isProceed : Resolution → Bool
  | .proceed _ _ => true
  | .deny _ _ _ => false

/-- The usage snapshot carried by a resolution. -/
def Resolution.usageInfo : Resolution → UsageInfo
  | .proceed _ u => u
  | .deny _ _ u => u

/-- Run the gate over a sequence of actions, threading the storage state,
collecting each resolution (models repeated `authorize` calls). -/
def runGate (cfg : Config) : StorageState → List Action → List Resolution × StorageState
  | st, [] => ([], st)
  | st, a :: rest =>
    let (r, st') := resolveUsageAndApiKey cfg st a
    let (rs, st'') := runGate cfg st' rest
    (r :: rs, st'')

example :
    resolveUsageAndApiKey ⟨100, "k"⟩ ⟨none, some 99, some .free⟩ .summarizeText =
      (.proceed (some "k") ⟨"free", 100, 0, 100⟩, ⟨none, some 100, some .free⟩) := by
  decide

example :
    resolveUsageAndApiKey ⟨100, "k"⟩ ⟨none, some 100, some .free⟩ .summarizeText =
      (.deny (exhaustedMsg 100) true ⟨"free", 100, 0, 100⟩, ⟨none, some 100, some .free⟩) := by
  decide

/-! ## Popup flows (popup.js) -/

/-- Outcome of `chrome.identity.launchWebAuthFlow` as observed by the
callback in `startGoogleUpgrade`: either a runtime error, or a redirect
URL (possibly absent). -/
inductive AuthFlowOutcome where
  | flowError (msg : String)
  | redirect (url : Option String)
deriving DecidableEq, Repr

/-- Whether `pat` is a prefix of `l` (character lists). -/
def listStartsWith : List Char → List Char → Bool
  | [], _ => true
  | _ :: _, [] => false
  | p :: ps, c :: cs => p = c && listStartsWith ps cs

/-- Whether `pat` occurs as a contiguous run inside `l`; models JS
`indexOf(pat) !== -1`. -/
def listHasRun (pat : List Char) : List Char → Bool
  | [] => pat.isEmpty
  | c :: rest => listStartsWith pat (c :: rest) || listHasRun pat rest

/-- The success condition of `startGoogleUpgrade`: no runtime error, a
redirect URL was returned, and it contains `access_token=`. -/
def upgradeSucceeds : AuthFlowOutcome → Bool
  | .flowError _ => false
  | .redirect none => false
  | .redirect (some url) => listHasRun "access_token=".data url.data

/-- Shallow embedding of the storage effect of `startGoogleUpgrade`
(popup.js): on success, set `subscriptionStatus` to `'paid'`; otherwise
leave storage unchanged. -/
def startGoogleUpgrade (st : StorageState) (o : AuthFlowOutcome) : StorageState :=
  if upgradeSucceeds o then { st with subscriptionStatus := some .paid } else st

/-- Shallow embedding of the storage effect of the save-button click
handler (popup.js): a non-empty trimmed key is stored together with
`subscriptionStatus = 'custom'`; an empty input changes nothing. -/
def saveApiKey (st : StorageState) (input : String) : StorageState :=
  let apiKey := jsTrim input
  if apiKey ≠ "" then
    { st with llmApiKey := some apiKey, subscriptionStatus := some .custom }
  else st

/-! ## Request broker (background.js handleRequest and onMessage) -/

/-- Response produced by the offscreen processor (`processLLM`). -/
structure ProcResponse where
  success : Bool
  result : Option String
  error : Option String
  errorCode : Option String
deriving DecidableEq, Repr

/-- Response returned by the broker to the content surface. -/
structure BrokerResponse where
  success : Bool
  result : Option String
  error : Option String
  errorCode : Option String
  usageInfo : Option UsageInfo
deriving DecidableEq, Repr

/-- Environment of a `handleRequest` call past the gate: either
`ensureOffscreenReady` threw, or the offscreen `sendMessage` callback ran
with a runtime error, or it received a (possibly absent) response. -/
inductive OffscreenEnv where
  | unavailable
  | callbackError (msg : Option String)
  | respond (r : Option ProcResponse)
deriving DecidableEq, Repr

/-- Shallow embedding of `handleRequest` (background.js): resolve usage
and api key, map a gate denial to an error response, otherwise forward to
the offscreen processor and stamp `usageInfo` onto whatever comes back. -/
def handleRequest (cfg : Config) (st : StorageState) (action : Action)
    (env : OffscreenEnv) : BrokerResponse × StorageState :=
  let (apiResolution, st') := resolveUsageAndApiKey cfg st action
  match apiResolution with
  | .deny err requiresUpgrade usageInfo =>
    ({ success := false, result := none, error := some err,
       errorCode := some (if requiresUpgrade then "FREE_TIER_EXHAUSTED" else "API_KEY_REQUIRED"),
       usageInfo := some usageInfo }, st')
  | .proceed _ usageInfo =>
    match env with
    | .unavailable =>
      ({ success := false, result := none,
         error := some "Background worker unavailable. Try reloading the extension.",
         errorCode := some "OFFSCREEN_UNAVAILABLE", usageInfo := some usageInfo }, st')
    | .callbackError m =>
      ({ success := false, result := none,
         error := some (jsOr (m.getD "") "Processor unavailable."),
         errorCode := some "OFFSCREEN_UNAVAILABLE", usageInfo := some usageInfo }, st')
    | .respond none =>
      ({ success := false, result := none,
         error := some "No response from processor.",
         errorCode := some "NO_PROCESSOR_RESPONSE", usageInfo := some usageInfo }, st')
    | .respond (some p) =>
      ({ success := p.success, result := p.result, error := p.error,
         errorCode := p.errorCode, usageInfo := some usageInfo }, st')

/-- Outcome of the `handleRequest(message)` promise in the `onMessage`
listener: resolved with a response, or rejected with an error. -/
inductive HandleOutcome where
  | ok (r : BrokerResponse)
  | thrown (msg : Option String)
deriving DecidableEq, Repr

/-- Shallow embedding of the response the `onMessage` listener sends for
a summarize/ocr message: the `handleRequest` result, or, when the promise
rejected, the catch-branch response. -/
def onMessageResponse : HandleOutcome → BrokerResponse
  | .ok r => r
  | .thrown m =>
    { success := false, result := none,
      error := some (jsOr (m.getD "") "Unexpected error occurred."),
      errorCode := some "UNEXPECTED_ERROR", usageInfo := none }

/-! ## Content script constants (src/content.ts) -/

/-- Delay in ms before showing tooltip. -/
def HOVER_DELAY : Nat := 500

/-- Auto-dismiss delay for non-processing tooltips. -/
def AUTO_HIDE_DELAY : Nat := 5000

/-- Preview cache TTL: 5 minutes. -/
def PREVIEW_CACHE_DURATION_MS : Nat := 5 * 60 * 1000

/-- Summary cache TTL: 10 minutes. -/
def SUMMARY_CACHE_DURATION_MS : Nat := 10 * 60 * 1000

/-- Minimum text length to trigger summarization. -/
def MIN_TEXT_LENGTH : Nat := 50

/-- Maximum text length to summarize. -/
def MAX_TEXT_LENGTH : Nat := 2000

/-! ## String helpers mirroring the JS operations used by content.ts -/

/-- Replace each maximal whitespace run by a single space
(JS `replace` of a whitespace-run pattern with a space). -/
def collapseWsAux : Bool → List Char → List Char
  | _, [] => []
  | prevWs, c :: rest =>
    if c.isWhitespace then
      if prevWs then collapseWsAux true rest else ' ' :: collapseWsAux true rest
    else c :: collapseWsAux false rest

/-- String form of `collapseWsAux`. -/
def collapseWs (s : String) : String := ⟨collapseWsAux false s.data⟩

/-- Uppercase hex digit of a value below 16. -/
def hexDigit (n : Nat) : Char := if n < 10 then Char.ofNat (48 + n) else Char.ofNat (55 + n)

/-- UTF-8 byte sequence of a character. -/
def utf8Bytes (c : Char) : List Nat :=
  let n := c.toNat
  if n < 128 then [n]
  else if n < 2048 then [192 + n / 64, 128 + n % 64]
  else if n < 65536 then [224 + n / 4096, 128 + n / 64 % 64, 128 + n % 64]
  else [240 + n / 262144, 128 + n / 4096 % 64, 128 + n / 64 % 64, 128 + n % 64]

/-- Characters `encodeURIComponent` leaves unescaped. -/
def uriUnreserved (c : Char) : Bool :=
  c.isAlphanum || c = '-' || c = '_' || c = '.' || c = '!' || c = '~' ||
    c = '*' || c = '\'' || c = '(' || c = ')'

/-- JS `encodeURIComponent`: percent-encode every UTF-8 byte of each
reserved character. -/
def encodeURIComponent (s : String) : String :=
  ⟨s.data.flatMap fun c =>
    if uriUnreserved c then [c]
    else (utf8Bytes c).flatMap fun b => ['%', hexDigit (b / 16), hexDigit (b % 16)]⟩

/-! ## Hover classification (src/content.ts) -/

/-- Structural descriptor of a hovered DOM element: its tag, the
attributes the classifier inspects, and the instance checks it performs
(`HTMLImageElement`, `HTMLAnchorElement`, `HTMLButtonElement`,
`HTMLInputElement`, `HTMLTextAreaElement`, `HTMLSelectElement`). -/
structure Elem where
  tag : String
  role : Option String
  ariaLabel : Option String
  title : Option String
  id : String
  textContent : String
  isAnchor : Bool
  href : String
  isButton : Bool
  isInput : Bool
  isTextArea : Bool
  isSelect : Bool
  isImage : Bool
  src : String
deriving DecidableEq, Repr

/-- Tag names accepted as text containers by `extractTextFromElement`. -/
def textContainers : List String :=
  ["P", "H1", "H2", "H3", "H4", "H5", "H6", "LI", "BLOCKQUOTE", "DD", "DT",
   "TD", "TH", "SPAN", "DIV", "ARTICLE", "SECTION"]

/-- Shallow embedding of `extractTextFromElement` (content.ts): skip
interactive elements, require a text-container tag, require the trimmed
text to reach `MIN_TEXT_LENGTH`, and truncate past `MAX_TEXT_LENGTH`
with a `...` marker. -/
def extractTextFromElement (e : Elem) : Option String :=
  if e.isAnchor ∨ e.isButton ∨ e.role = some "button" ∨
      e.isInput ∨ e.isTextArea ∨ e.isSelect then none
  else if e.tag ∉ textContainers then none
  else
    let text := jsTrim e.textContent
    if text.length < MIN_TEXT_LENGTH then none
    else some (if text.length > MAX_TEXT_LENGTH then strTake text MAX_TEXT_LENGTH ++ "..." else text)

/-- Shallow embedding of `getSummaryCacheKey` (content.ts); `pg` is the
page identity `origin ++ pathname`. -/
def getSummaryCacheKey (pg text : String) : String :=
  let textHash := jsTrim (collapseWs (strTake text 100))
  let encoded := encodeURIComponent textHash
  "summary::" ++ pg ++ "::" ++ encoded

/-- Shallow embedding of `getButtonSummaryCacheKey` (content.ts). -/
def getButtonSummaryCacheKey (pg : String) (e : Elem) (buttonText : String)
    (href : Option String) : String :=
  let identifier := jsOr (href.getD "") (jsOr buttonText (jsOr e.id (e.ariaLabel.getD "")))
  let hash := jsTrim (collapseWs (strTake identifier 100))
  let encoded := encodeURIComponent hash
  "button-summary::" ++ pg ++ "::" ++ encoded

/-- Shallow embedding of `getPreviewCacheKey` (content.ts): only anchors,
buttons and `role="button"` elements qualify; the identifier is the first
truthy of the element's locator fields. -/
def getPreviewCacheKey (pg : String) (e : Elem) : Option String :=
  if ¬(e.isAnchor ∨ e.isButton ∨ e.role = some "button") then none
  else
    let identifier :=
      if e.isAnchor then jsOr e.href (jsOr e.textContent (jsOr (e.ariaLabel.getD "") e.id))
      else jsOr e.id (jsOr (e.ariaLabel.getD "") e.textContent)
    if identifier = "" then none
    else
      let trimmed := strTake (collapseWs (jsTrim identifier)) 200
      let encoded := encodeURIComponent trimmed
      let elementType := if e.isAnchor then "link" else "button"
      some ("preview::" ++ elementType ++ "::" ++ pg ++ "::" ++ encoded)

/-- The pipeline a hover resolves to, with the payload each schedule
function receives. -/
inductive Pipeline where
  | imageOcr (imageUrl : String)
  | preview (previewKey : String)
  | textSummary (text : String)
deriving DecidableEq, Repr

/-- Shallow embedding of the classification in `handleHover`
(content.ts): images with a source first, then preview-qualifying
elements, then text containers; at most one pipeline is scheduled. -/
def handleHover (pg : String) (e : Elem) : Option Pipeline :=
  if e.isImage ∧ e.src ≠ "" then some (.imageOcr e.src)
  else
    match getPreviewCacheKey pg e with
    | some previewKey => some (.preview previewKey)
    | none =>
      match extractTextFromElement e with
      | some text => some (.textSummary text)
      | none => none

/-! ## Layered result cache (src/content.ts) -/

/-- A summary cache entry: `{ summary, timestamp }`. -/
structure SummaryCacheEntry where
  summary : String
  timestamp : Nat
deriving DecidableEq, Repr

/-- A preview cache entry: `{ dataUrl, timestamp }`. -/
structure PreviewCacheEntry where
  dataUrl : String
  timestamp : Nat
deriving DecidableEq, Repr

/-- The keyed local storage holding summary entries. -/
def SummaryStore : Type := List (String × SummaryCacheEntry)

/-- The keyed local storage holding preview entries. -/
def PreviewStore : Type := List (String × PreviewCacheEntry)

/-- Shallow embedding of `getCachedSummary` (content.ts) at time `now`:
absent key resolves `null`; an entry with `now - timestamp >
SUMMARY_CACHE_DURATION_MS` is removed from storage and resolves `null`;
otherwise the stored summary is returned and storage is untouched. -/
def getCachedSummary (store : SummaryStore) (summaryKey : String) (now : Nat) :
    Option String × SummaryStore :=
  match List.lookup summaryKey store with
  | none => (none, store)
  | some entry =>
    if entry.timestamp + SUMMARY_CACHE_DURATION_MS < now then
      (none, store.filter fun p => p.1 ≠ summaryKey)
    else (some entry.summary, store)

/-- Shallow embedding of `cacheSummary` (content.ts): overwrite the key
with an entry stamped `now`. -/
def cacheSummary (store : SummaryStore) (summaryKey summary : String) (now : Nat) :
    SummaryStore :=
  (summaryKey, ⟨summary, now⟩) :: store.filter fun p => p.1 ≠ summaryKey

/-- Shallow embedding of `getCachedPreview` (content.ts), with the
5-minute `PREVIEW_CACHE_DURATION_MS`. -/
def getCachedPreview (store : PreviewStore) (previewKey : String) (now : Nat) :
    Option String × PreviewStore :=
  match List.lookup previewKey store with
  | none => (none, store)
  | some entry =>
    if entry.timestamp + PREVIEW_CACHE_DURATION_MS < now then
      (none, store.filter fun p => p.1 ≠ previewKey)
    else (some entry.dataUrl, store)

/-- Shallow embedding of `cachePreview` (content.ts). -/
def cachePreview (store : PreviewStore) (previewKey dataUrl : String) (now : Nat) :
    PreviewStore :=
  (previewKey, ⟨dataUrl, now⟩) :: store.filter fun p => p.1 ≠ previewKey

/-! ## Asynchronous continuations and their staleness guards
(src/content.ts).  Each function below models the rendering decision of
one asynchronous continuation; `attached` is the value of
`document.body.contains(target)` at the moment the continuation runs,
`lastError` the value of `chrome.runtime.lastError`.  The cache writes
these callbacks also perform are modelled by `cacheSummary` above. -/

/-- What a continuation does: nothing, render a tooltip, or fall through
to the `summarizeText` request. -/
inductive HoverStep where
  | noop
  | render (html : String)
  | requestSummary
deriving DecidableEq, Repr

/-- Shallow embedding of `escapeHtml` (content.ts). -/
def escapeHtmlChar (c : Char) : List Char :=
  if c = '&' then "&amp;".data
  else if c = '<' then "&lt;".data
  else if c = '>' then "&gt;".data
  else if c = '"' then "&quot;".data
  else if c = '\'' then "&#39;".data
  else [c]

/-- String form of `escapeHtmlChar`. -/
def escapeHtml (s : String) : String := ⟨s.data.flatMap escapeHtmlChar⟩

/-- Shallow embedding of `buildUsageFooter` (content.ts); `none` models a
response without a numeric `freeTooltipsRemaining`. -/
def buildUsageFooter (usageInfo : Option UsageInfo) : String :=
  match usageInfo with
  | none => ""
  | some u =>
    "<p class=\"ai-tooltip-footer\">Free tooltips left: " ++
      toString u.freeTooltipsRemaining ++ "/" ++ toString u.freeTierLimit ++ "</p>"

/-- The upgrade hint inserted when `errorCode === FREE_TIER_EXHAUSTED`. -/
def upgradeHintFor (errorCode : Option String) : String :=
  if errorCode = some "FREE_TIER_EXHAUSTED" then
    "<p><em>Limit reached. Open the extension popup to upgrade.</em></p>"
  else ""

/-- Rendering behaviour of the `ocrImage` response callback in
`scheduleImageHover` (content.ts): the callback performs no attachment
check, so `attached` is ignored. -/
def imageHoverOnResponse (attached : Bool) (lastError : Option String)
    (resp : Option BrokerResponse) : HoverStep :=
  match lastError with
  | some m => .render ("<p><strong>Error:</strong></p><p>" ++ m ++ "</p>")
  | none =>
    let usageFooter := buildUsageFooter (resp.bind (·.usageInfo))
    match resp with
    | some r =>
      if r.success then
        .render ("<p><strong>Image OCR Result:</strong></p><p>" ++
          r.result.getD "" ++ "</p>" ++ usageFooter)
      else if jsTruthy r.error then
        .render ("<p><strong>Error:</strong></p><p>" ++ r.error.getD "" ++ "</p>" ++
          upgradeHintFor r.errorCode ++ usageFooter)
      else
        .render ("<p><strong>Error:</strong></p><p>Failed to get response from background worker.</p>" ++
          usageFooter)
    | none =>
      .render ("<p><strong>Error:</strong></p><p>Failed to get response from background worker.</p>" ++
        usageFooter)

/-- Behaviour of the continuation of `scheduleTextHover` after the cache
read resolves (content.ts): a detached target is a no-op, a truthy cached
summary renders immediately, otherwise the summarize request is sent. -/
def textHoverAfterCache (attached : Bool) (cached : Option String) : HoverStep :=
  if ¬attached then .noop
  else if jsTruthy cached then
    .render ("<p><strong>Summary:</strong></p><p>" ++ escapeHtml (cached.getD "") ++ "</p>")
  else .requestSummary

/-- Rendering behaviour of the `summarizeText` response callback in
`scheduleTextHover` (content.ts). -/
def textHoverOnResponse (attached : Bool) (lastError : Option String)
    (resp : Option BrokerResponse) : HoverStep :=
  if ¬attached then .noop
  else
    match lastError with
    | some m =>
      .render ("<p><strong>Error:</strong></p><p>" ++
        escapeHtml (jsOr m "Unknown error occurred.") ++ "</p>")
    | none =>
      let usageFooter := buildUsageFooter (resp.bind (·.usageInfo))
      match resp with
      | some r =>
        if r.success ∧ jsTruthy r.result then
          .render ("<p><strong>Summary:</strong></p><p>" ++
            escapeHtml (r.result.getD "") ++ "</p>" ++ usageFooter)
        else if jsTruthy r.error then
          .render ("<p><strong>Error:</strong></p><p>" ++ escapeHtml (r.error.getD "") ++
            "</p>" ++ upgradeHintFor r.errorCode ++ usageFooter)
        else
          .render ("<p><strong>Error:</strong></p><p>Failed to get response from background worker.</p>" ++
            usageFooter)
      | none =>
        .render ("<p><strong>Error:</strong></p><p>Failed to get response from background worker.</p>" ++
          usageFooter)

/-- Behaviour of the continuation of `schedulePreviewHover` after the
button-summary cache read resolves (content.ts); `dataUrl` is the value
the preview-capture promise resolves to (`none` models a failed or empty
capture). -/
def previewHoverAfterCache (attached : Bool) (buttonSummary : Option String)
    (dataUrl : Option String) : HoverStep :=
  if ¬attached then .noop
  else if jsTruthy buttonSummary then
    match dataUrl with
    | some u =>
      .render ("<div><p><strong>What it does:</strong> " ++
        escapeHtml (buttonSummary.getD "") ++
        "</p><img src=\"" ++ u ++ "\" class=\"ai-tooltip-preview\" alt=\"Preview\" /></div>")
    | none =>
      .render ("<div><p><strong>What it does:</strong> " ++
        escapeHtml (buttonSummary.getD "") ++ "</p></div>")
  else .requestSummary

/-- Rendering behaviour of the `summarizeText` response callback in
`schedulePreviewHover` (content.ts). -/
def previewHoverOnResponse (attached : Bool) (lastError : Option String)
    (resp : Option BrokerResponse) (dataUrl : Option String) : HoverStep :=
  if ¬attached then .noop
  else
    match lastError with
    | some m =>
      let errHtml := "<p class=\"ai-tooltip-footer\"><em>Error: " ++
        escapeHtml (jsOr m "Unknown error occurred.") ++ "</em></p>"
      match dataUrl with
      | some u =>
        .render ("<div><img src=\"" ++ u ++
          "\" class=\"ai-tooltip-preview\" alt=\"Preview\" />" ++ errHtml ++ "</div>")
      | none => .render ("<div>" ++ errHtml ++ "</div>")
    | none =>
      let usageFooter := buildUsageFooter (resp.bind (·.usageInfo))
      match resp with
      | some r =>
        if r.success ∧ jsTruthy r.result then
          let body := "<p><strong>What it does:</strong> " ++
            escapeHtml (r.result.getD "") ++ "</p>"
          match dataUrl with
          | some u =>
            .render ("<div>" ++ body ++ "<img src=\"" ++ u ++
              "\" class=\"ai-tooltip-preview\" alt=\"Preview\" />" ++ usageFooter ++ "</div>")
          | none => .render ("<div>" ++ body ++ usageFooter ++ "</div>")
        else if jsTruthy r.error then
          let errBody := "<p class=\"ai-tooltip-footer\"><em>" ++
            escapeHtml (r.error.getD "") ++ "</em>" ++
            upgradeHintFor r.errorCode ++ usageFooter ++ "</p>"
          match dataUrl with
          | some u =>
            .render ("<div><img src=\"" ++ u ++
              "\" class=\"ai-tooltip-preview\" alt=\"Preview\" />" ++ errBody ++ "</div>")
          | none => .render ("<div>" ++ errBody ++ "</div>")
        else
          match dataUrl with
          | some u =>
            .render ("<div><img src=\"" ++ u ++
              "\" class=\"ai-tooltip-preview\" alt=\"Preview\" /></div>")
          | none =>
            .render "<div><p class=\"ai-tooltip-footer\"><em>Summary unavailable. Click to interact.</em></p></div>"
      | none =>
        match dataUrl with
        | some u =>
          .render ("<div><img src=\"" ++ u ++
            "\" class=\"ai-tooltip-preview\" alt=\"Preview\" /></div>")
        | none =>
          .render "<div><p class=\"ai-tooltip-footer\"><em>Summary unavailable. Click to interact.</em></p></div>"

/-! ## Tooltip replacement discipline (src/content.ts)

`showTooltip` removes the tracked hover tooltip and the fixed summary
tooltip before appending; the `showSummaryTooltip` message listener
appends a fixed tooltip with id `TOOLTIP_ID` without removing anything.
The DOM is abstracted to the number of visible tooltips of each kind:
`current` says whether the tracked hover tooltip is in the document,
`fixedCount` counts elements carrying `TOOLTIP_ID`. -/

/-- Tooltip-relevant DOM state. -/
structure TooltipDom where
  current : Bool
  fixedCount : Nat
deriving DecidableEq, Repr

/-- The operations that create or remove tooltips. -/
inductive TooltipOp where
  | show
  | contextShow
  | removeCurrent
  | contextResolve
deriving DecidableEq, Repr

/-- Effect of each operation on the DOM state: `show` is `showTooltip`
(remove tracked tooltip, remove one fixed tooltip, append and track a new
one); `contextShow` is the `showSummaryTooltip` listener appending a
fixed tooltip; `removeCurrent` is the mouseout handler or auto-hide timer
(`removeCurrentTooltip`); `contextResolve` is a fixed tooltip removing
itself after its response arrives. -/
def applyTooltipOp (s : TooltipDom) : TooltipOp → TooltipDom
  | .show => { current := true, fixedCount := s.fixedCount - 1 }
  | .contextShow => { s with fixedCount := s.fixedCount + 1 }
  | .removeCurrent => { s with current := false }
  | .contextResolve => { s with fixedCount := s.fixedCount - 1 }

/-- Run a sequence of tooltip operations. -/
def runTooltipOps (s : TooltipDom) : List TooltipOp → TooltipDom
  | [] => s
  | op :: rest => runTooltipOps (applyTooltipOp s op) rest

/-- Number of tooltips visible in a DOM state. -/
def visibleTooltips (s : TooltipDom) : Nat :=
  (if s.current then 1 else 0) + s.fixedCount

/-! ## Helper lemmas -/

/-- Gate step with a truthy custom credential: proceed with that
credential, storage untouched. -/
theorem resolve_customKey (cfg : Config) (st : StorageState) (a : Action)
    (h : jsTruthy st.llmApiKey = true) :
    resolveUsageAndApiKey cfg st a =
      (.proceed st.llmApiKey
        ⟨if st.subscriptionStatus.getD .free = .paid then "paid" else "custom",
         cfg.freeTierLimit, cfg.freeTierLimit - st.freeTooltipsUsed.getD 0,
         st.freeTooltipsUsed.getD 0⟩, st) := by
  simp [resolveUsageAndApiKey, h]

/-- Gate step on a paid plan without a custom credential: deny with the
subscription message, storage untouched. -/
theorem resolve_paid_noKey (cfg : Config) (st : StorageState) (a : Action)
    (hk : jsTruthy st.llmApiKey = false)
    (hp : st.subscriptionStatus.getD .free = .paid) :
    resolveUsageAndApiKey cfg st a =
      (.deny subscriptionNeedsKeyMsg false
        ⟨"paid", cfg.freeTierLimit, cfg.freeTierLimit - st.freeTooltipsUsed.getD 0,
         st.freeTooltipsUsed.getD 0⟩, st) := by
  simp [resolveUsageAndApiKey, hk, hp, Plan.toStr]

/-- Gate step on an exhausted free tier: deny with the exhausted message
and a zero remaining snapshot, storage untouched. -/
theorem resolve_exhausted (cfg : Config) (st : StorageState) (a : Action)
    (hk : jsTruthy st.llmApiKey = false)
    (hp : st.subscriptionStatus.getD .free = .free)
    (hu : cfg.freeTierLimit ≤ st.freeTooltipsUsed.getD 0) :
    resolveUsageAndApiKey cfg st a =
      (.deny (exhaustedMsg cfg.freeTierLimit) true
        ⟨"free", cfg.freeTierLimit, 0, st.freeTooltipsUsed.getD 0⟩, st) := by
  simp [resolveUsageAndApiKey, hk, hp, hu, Plan.toStr]

/-- Gate step on a free plan below the ceiling with the fallback
credential available where needed: proceed and persist the increment. -/
theorem resolve_free_proceed (cfg : Config) (st : StorageState) (a : Action)
    (hk : jsTruthy st.llmApiKey = false)
    (hp : st.subscriptionStatus.getD .free = .free)
    (hu : st.freeTooltipsUsed.getD 0 < cfg.freeTierLimit)
    (hfb : a = .summarizeText → cfg.defaultFreeApiKey ≠ "") :
    resolveUsageAndApiKey cfg st a =
      (.proceed (if a = .summarizeText then some cfg.defaultFreeApiKey else none)
        ⟨"free", cfg.freeTierLimit,
         cfg.freeTierLimit - (st.freeTooltipsUsed.getD 0 + 1),
         st.freeTooltipsUsed.getD 0 + 1⟩,
       { st with freeTooltipsUsed := some (st.freeTooltipsUsed.getD 0 + 1) }) := by
  have hnle : ¬ cfg.freeTierLimit ≤ st.freeTooltipsUsed.getD 0 := by omega
  cases a with
  | summarizeText =>
    have hne := hfb rfl
    simp [resolveUsageAndApiKey, hk, hp, hnle, hne, Plan.toStr]
  | ocrImage =>
    simp [resolveUsageAndApiKey, hk, hp, hnle, Plan.toStr]

/-- The missing-fallback denial message differs from the exhausted-tier
denial message, whatever the configured ceiling. -/
theorem noFallback_ne_exhaustedMsg (n : Nat) : noFallbackMsg ≠ exhaustedMsg n := by
  intro h
  have h10 : noFallbackMsg.data[10]? = (exhaustedMsg n).data[10]? := by rw [h]
  have hlen : ("Free tier limit of ".data).length = 19 := rfl
  have hx : (exhaustedMsg n).data[10]? = some 'l' := by
    unfold exhaustedMsg
    rw [String.data_append, String.data_append]
    rw [List.getElem?_append_left, List.getElem?_append_left]
    · rfl
    · rw [hlen]; omega
    · rw [List.length_append, hlen]; omega
  rw [hx] at h10
  exact absurd h10 (by decide)

/-- Looking up a key in a store from which that key was filtered out
always fails. -/
theorem lookup_filter_self {β : Type} (key : String) (l : List (String × β)) :
    List.lookup key (l.filter fun p => p.1 ≠ key) = none := by
  simp
  exact fun a b _ hne he => hne he.symm

/-! ## Claims -/

/-- Claim C1, corrected.  With plan Free, no custom credential, the
counter one below the ceiling, and — when the action is
summarization-class — the shared fallback credential configured, the gate
proceeds, persists the counter at the ceiling and reports zero remaining;
any subsequent request in the resulting state is denied with the
exhausted-free-tier reason and a snapshot showing zero remaining. -/
theorem claim_C1 (cfg : Config) (st : StorageState) (a a' : Action)
    (hkey : jsTruthy st.llmApiKey = false)
    (hplan : st.subscriptionStatus.getD .free = .free)
    (hceil : 1 ≤ cfg.freeTierLimit)
    (hused : st.freeTooltipsUsed.getD 0 = cfg.freeTierLimit - 1)
    (hfallback : a = .summarizeText → cfg.defaultFreeApiKey ≠ "") :
    (resolveUsageAndApiKey cfg st a).1.isProceed = true ∧
    (resolveUsageAndApiKey cfg st a).2.freeTooltipsUsed = some cfg.freeTierLimit ∧
    (resolveUsageAndApiKey cfg st a).1.usageInfo.freeTooltipsRemaining = 0 ∧
    (resolveUsageAndApiKey cfg ((resolveUsageAndApiKey cfg st a).2) a').1 =
      .deny (exhaustedMsg cfg.freeTierLimit) true
        ⟨"free", cfg.freeTierLimit, 0, cfg.freeTierLimit⟩ := by
  have hstep := resolve_free_proceed cfg st a hkey hplan (by omega) hfallback
  have hfull : st.freeTooltipsUsed.getD 0 + 1 = cfg.freeTierLimit := by omega
  rw [hstep, hfull]
  refine ⟨rfl, rfl, ?_, ?_⟩
  · simp [Resolution.usageInfo]
  · have hstep2 := resolve_exhausted cfg
      { st with freeTooltipsUsed := some cfg.freeTierLimit } a' hkey hplan (by simp)
    rw [hstep2]
    simp

/-- Claim C1, counterexample to the original statement: with the shared
fallback credential unconfigured (the committed default), a summarization
request in exactly the claimed state is denied, not authorized, and the
counter is not incremented. -/
theorem claim_C1_counterexample :
    (resolveUsageAndApiKey ⟨100, ""⟩ ⟨none, some 99, some .free⟩ .summarizeText).1 =
      .deny noFallbackMsg true ⟨"free", 100, 1, 99⟩ ∧
    (resolveUsageAndApiKey ⟨100, ""⟩ ⟨none, some 99, some .free⟩ .summarizeText).2 =
      ⟨none, some 99, some .free⟩ := by
  decide

/-- Claim C1, witness at ceiling 100, counter 99, fallback configured. -/
theorem claim_C1_witness :
    (resolveUsageAndApiKey ⟨100, "sk"⟩ ⟨none, some 99, some .free⟩ .summarizeText).1.isProceed = true ∧
    (resolveUsageAndApiKey ⟨100, "sk"⟩ ⟨none, some 99, some .free⟩ .summarizeText).2.freeTooltipsUsed = some 100 ∧
    (resolveUsageAndApiKey ⟨100, "sk"⟩ ⟨none, some 99, some .free⟩ .summarizeText).1.usageInfo.freeTooltipsRemaining = 0 ∧
    (resolveUsageAndApiKey ⟨100, "sk"⟩
        ((resolveUsageAndApiKey ⟨100, "sk"⟩ ⟨none, some 99, some .free⟩ .summarizeText).2)
        .summarizeText).1 =
      .deny (exhaustedMsg 100) true ⟨"free", 100, 0, 100⟩ :=
  claim_C1 ⟨100, "sk"⟩ ⟨none, some 99, some .free⟩ .summarizeText .summarizeText
    (by decide) (by decide) (by decide) (by decide) (fun _ => by decide)

/-- Claim C2: with a non-empty custom credential stored, every authorize
call proceeds with that credential attached and the persisted counter is
never incremented, regardless of the action kinds and the number of
calls. -/
theorem claim_C2 (cfg : Config) (st : StorageState) (acts : List Action)
    (hkey : jsTruthy st.llmApiKey = true) :
    (runGate cfg st acts).2 = st ∧
    ∀ r ∈ (runGate cfg st acts).1,
      r = .proceed st.llmApiKey
        ⟨if st.subscriptionStatus.getD .free = .paid then "paid" else "custom",
         cfg.freeTierLimit, cfg.freeTierLimit - st.freeTooltipsUsed.getD 0,
         st.freeTooltipsUsed.getD 0⟩ := by
  induction acts with
  | nil => exact ⟨rfl, by simp [runGate]⟩
  | cons a rest ih =>
    have hstep := resolve_customKey cfg st a hkey
    have hrun : runGate cfg st (a :: rest) =
        ((resolveUsageAndApiKey cfg st a).1 :: (runGate cfg st rest).1,
         (runGate cfg st rest).2) := by
      simp [runGate, hstep]
    rw [hrun]
    refine ⟨ih.1, ?_⟩
    intro r hr
    rcases List.mem_cons.mp hr with h | h
    · rw [h, hstep]
    · exact ih.2 r h

/-- Claim C2, witness: two calls of different kinds under a stored custom
credential leave the storage unchanged. -/
theorem claim_C2_witness :
    (runGate ⟨100, ""⟩ ⟨some "mykey", some 5, some .custom⟩ [.summarizeText, .ocrImage]).2 =
      ⟨some "mykey", some 5, some .custom⟩ :=
  (claim_C2 ⟨100, ""⟩ ⟨some "mykey", some 5, some .custom⟩ [.summarizeText, .ocrImage]
    (by decide)).1

/-- Claim C3: a successful identity-upgrade event sets the plan to Paid,
and an authorize call in that state without a custom credential is denied
with the subscription-needs-credential message, attaching no credential
and leaving storage unchanged. -/
theorem claim_C3 (cfg : Config) (st : StorageState) (o : AuthFlowOutcome) (a : Action)
    (hsucc : upgradeSucceeds o = true)
    (hkey : jsTruthy (startGoogleUpgrade st o).llmApiKey = false) :
    (startGoogleUpgrade st o).subscriptionStatus = some .paid ∧
    resolveUsageAndApiKey cfg (startGoogleUpgrade st o) a =
      (.deny subscriptionNeedsKeyMsg false
        ⟨"paid", cfg.freeTierLimit,
         cfg.freeTierLimit - (startGoogleUpgrade st o).freeTooltipsUsed.getD 0,
         (startGoogleUpgrade st o).freeTooltipsUsed.getD 0⟩,
       startGoogleUpgrade st o) := by
  have hup : startGoogleUpgrade st o = { st with subscriptionStatus := some .paid } := by
    simp [startGoogleUpgrade, hsucc]
  refine ⟨by rw [hup], ?_⟩
  exact resolve_paid_noKey cfg _ a hkey (by rw [hup]; rfl)

/-- Claim C3, witness at a concrete redirect URL carrying an access
token. -/
theorem claim_C3_witness :
    (startGoogleUpgrade ⟨none, some 3, some .free⟩
      (.redirect (some "https://extid.chromiumapp.org/#access_token=ya29abc&token_type=Bearer"))).subscriptionStatus =
      some .paid ∧
    resolveUsageAndApiKey ⟨100, "sk"⟩
        (startGoogleUpgrade ⟨none, some 3, some .free⟩
          (.redirect (some "https://extid.chromiumapp.org/#access_token=ya29abc&token_type=Bearer")))
        .summarizeText =
      (.deny subscriptionNeedsKeyMsg false
        ⟨"paid", 100,
         100 - (startGoogleUpgrade ⟨none, some 3, some .free⟩
            (.redirect (some "https://extid.chromiumapp.org/#access_token=ya29abc&token_type=Bearer"))).freeTooltipsUsed.getD 0,
         (startGoogleUpgrade ⟨none, some 3, some .free⟩
            (.redirect (some "https://extid.chromiumapp.org/#access_token=ya29abc&token_type=Bearer"))).freeTooltipsUsed.getD 0⟩,
       startGoogleUpgrade ⟨none, some 3, some .free⟩
        (.redirect (some "https://extid.chromiumapp.org/#access_token=ya29abc&token_type=Bearer"))) :=
  claim_C3 ⟨100, "sk"⟩ ⟨none, some 3, some .free⟩
    (.redirect (some "https://extid.chromiumapp.org/#access_token=ya29abc&token_type=Bearer"))
    .summarizeText (by decide) (by decide)

/-- Claim C4: a summarization request on a free plan below the ceiling,
with no custom credential and no shared fallback credential configured,
is denied with the no-fallback message, which differs from the
exhausted-free-tier message. -/
theorem claim_C4 (cfg : Config) (st : StorageState)
    (hkey : jsTruthy st.llmApiKey = false)
    (hplan : st.subscriptionStatus.getD .free = .free)
    (hused : st.freeTooltipsUsed.getD 0 < cfg.freeTierLimit)
    (hfb : cfg.defaultFreeApiKey = "") :
    resolveUsageAndApiKey cfg st .summarizeText =
      (.deny noFallbackMsg true
        ⟨"free", cfg.freeTierLimit, cfg.freeTierLimit - st.freeTooltipsUsed.getD 0,
         st.freeTooltipsUsed.getD 0⟩, st) ∧
    noFallbackMsg ≠ exhaustedMsg cfg.freeTierLimit := by
  refine ⟨?_, noFallback_ne_exhaustedMsg cfg.freeTierLimit⟩
  have hnle : ¬ cfg.freeTierLimit ≤ st.freeTooltipsUsed.getD 0 := by omega
  simp [resolveUsageAndApiKey, hkey, hplan, hnle, hfb, Plan.toStr]

/-- Claim C4, witness at ceiling 100, counter 10, empty fallback key. -/
theorem claim_C4_witness :
    resolveUsageAndApiKey ⟨100, ""⟩ ⟨none, some 10, some .free⟩ .summarizeText =
      (.deny noFallbackMsg true ⟨"free", 100, 100 - 10, 10⟩,
       ⟨none, some 10, some .free⟩) ∧
    noFallbackMsg ≠ exhaustedMsg 100 := by
  have h := claim_C4 ⟨100, ""⟩ ⟨none, some 10, some .free⟩ (by decide) (by decide)
    (by decide) (by decide)
  exact h

/-- Claim C10, corrected: every response produced by `handleRequest` —
gate denial, offscreen unavailable, callback error, missing processor
response, or processor response — carries a populated usage snapshot. -/
theorem claim_C10 (cfg : Config) (st : StorageState) (a : Action) (env : OffscreenEnv) :
    ((handleRequest cfg st a env).1.usageInfo).isSome = true := by
  rcases hr : resolveUsageAndApiKey cfg st a with ⟨res, st2⟩
  cases res with
  | deny e u ui => simp [handleRequest, hr]
  | proceed k ui =>
    cases env with
    | unavailable => simp [handleRequest, hr]
    | callbackError m => simp [handleRequest, hr]
    | respond r => cases r <;> simp [handleRequest, hr]

/-- Claim C10, counterexample to the original statement: the catch branch
of the `onMessage` listener answers a rejected `handleRequest` with a
response that carries no usage snapshot. -/
theorem claim_C10_counterexample :
    (onMessageResponse (.thrown (some "storage access threw"))).usageInfo = none ∧
    (onMessageResponse (.thrown (some "storage access threw"))).errorCode =
      some "UNEXPECTED_ERROR" := by
  decide

/-- Page identity used by the concrete witnesses. -/
def pg0 : String := "https://example.com/articles"

/-- A plain paragraph element with enough text to summarize. -/
def textElem0 : Elem :=
  { tag := "P", role := none, ariaLabel := none, title := none, id := "",
    textContent := "This paragraph carries enough characters to trigger the summarization pipeline.",
    isAnchor := false, href := "", isButton := false, isInput := false,
    isTextArea := false, isSelect := false, isImage := false, src := "" }

/-- An image that also carries an interactive role, so it qualifies for
two pipelines. -/
def imgElem0 : Elem :=
  { tag := "IMG", role := some "button", ariaLabel := none, title := none,
    id := "", textContent := "", isAnchor := false, href := "",
    isButton := false, isInput := false, isTextArea := false,
    isSelect := false, isImage := true, src := "https://example.com/cat.png" }

/-- A text input carrying `role="button"` and an id. -/
def inputElem0 : Elem :=
  { tag := "INPUT", role := some "button", ariaLabel := none, title := none,
    id := "submit-btn", textContent := "", isAnchor := false, href := "",
    isButton := false, isInput := true, isTextArea := false,
    isSelect := false, isImage := false, src := "" }

/-- Claim C5: a text-bearing element (text-container tag, not interactive)
classifies to a TextSummary request exactly when its trimmed text reaches
`MIN_TEXT_LENGTH`, and the payload is the trimmed text, truncated at
`MAX_TEXT_LENGTH` with a marker when longer. -/
theorem claim_C5 (pg : String) (e : Elem)
    (htag : e.tag ∈ textContainers)
    (himg : e.isImage = false)
    (ha : e.isAnchor = false) (hb : e.isButton = false)
    (hrole : e.role ≠ some "button")
    (hi : e.isInput = false) (hta : e.isTextArea = false) (hsel : e.isSelect = false) :
    ((∃ t, handleHover pg e = some (.textSummary t)) ↔
      MIN_TEXT_LENGTH ≤ (jsTrim e.textContent).length) ∧
    (MIN_TEXT_LENGTH ≤ (jsTrim e.textContent).length →
      handleHover pg e = some (.textSummary
        (if (jsTrim e.textContent).length > MAX_TEXT_LENGTH then
          strTake (jsTrim e.textContent) MAX_TEXT_LENGTH ++ "..."
        else jsTrim e.textContent))) := by
  have hpk : getPreviewCacheKey pg e = none := by
    simp [getPreviewCacheKey, ha, hb, hrole]
  have hh : handleHover pg e = (extractTextFromElement e).map Pipeline.textSummary := by
    cases hx : extractTextFromElement e <;> simp [handleHover, himg, hpk, hx]
  have hext : extractTextFromElement e =
      if (jsTrim e.textContent).length < MIN_TEXT_LENGTH then none
      else some (if (jsTrim e.textContent).length > MAX_TEXT_LENGTH then
        strTake (jsTrim e.textContent) MAX_TEXT_LENGTH ++ "..." else jsTrim e.textContent) := by
    simp [extractTextFromElement, ha, hb, hrole, hi, hta, hsel, htag]
  rw [hh, hext]
  constructor
  · by_cases hlen : (jsTrim e.textContent).length < MIN_TEXT_LENGTH <;>
      simp [hlen] <;> omega
  · intro hlen
    have : ¬ (jsTrim e.textContent).length < MIN_TEXT_LENGTH := by omega
    simp [this]

/-- Claim C5, witness at a 79-character paragraph. -/
theorem claim_C5_witness :
    handleHover pg0 textElem0 = some (.textSummary
      (if (jsTrim textElem0.textContent).length > MAX_TEXT_LENGTH then
        strTake (jsTrim textElem0.textContent) MAX_TEXT_LENGTH ++ "..."
      else jsTrim textElem0.textContent)) :=
  (claim_C5 pg0 textElem0 (by decide) rfl rfl rfl (by decide) rfl rfl rfl).2 (by decide)

/-- Claim C6, corrected: classification yields at most one pipeline by
strict priority — an image with a source always wins, a non-image with a
preview key yields the interactive-control pipeline — and an interactive
form control never yields the text-summary pipeline (it can still yield
the interactive-control pipeline when it carries `role="button"`). -/
theorem claim_C6 (pg : String) (e : Elem) :
    (e.isImage = true → e.src ≠ "" → handleHover pg e = some (.imageOcr e.src)) ∧
    (e.isImage = false → ∀ k, getPreviewCacheKey pg e = some k →
      handleHover pg e = some (.preview k)) ∧
    ((e.isInput = true ∨ e.isTextArea = true ∨ e.isSelect = true) →
      ∀ t, handleHover pg e ≠ some (.textSummary t)) := by
  refine ⟨?_, ?_, ?_⟩
  · intro h1 h2
    simp [handleHover, h1, h2]
  · intro h1 k hk
    simp [handleHover, h1, hk]
  · intro h t
    by_cases himg : e.isImage = true ∧ e.src ≠ ""
    · simp [handleHover, himg.1, himg.2]
    · have hx : extractTextFromElement e = none := by
        rcases h with h | h | h <;> simp [extractTextFromElement, h]
      cases hk : getPreviewCacheKey pg e <;>
        simp [handleHover, himg, hk, hx]

/-- Claim C6, counterexample to the original statement: a text input
carrying `role="button"` — an interactive form control — is classified
and yields a pipeline. -/
theorem claim_C6_counterexample :
    inputElem0.isInput = true ∧ (handleHover pg0 inputElem0).isSome = true := by
  decide

/-- Claim C6, witness: an image that also qualifies as an interactive
control resolves to the image pipeline, and a form control never yields
a text summary. -/
theorem claim_C6_witness :
    handleHover pg0 imgElem0 = some (.imageOcr "https://example.com/cat.png") ∧
    handleHover pg0 inputElem0 ≠ some (.textSummary "anything") :=
  ⟨(claim_C6 pg0 imgElem0).1 rfl (by decide),
   (claim_C6 pg0 inputElem0).2.2 (Or.inl rfl) "anything"⟩

/-- Claim C7: in both cache namespaces, a read strictly after the entry's
TTL returns absent and deletes the entry, a second read finds the key
gone, and a read within the TTL returns the stored value with storage
untouched. -/
theorem claim_C7
    (sStore : SummaryStore) (pStore : PreviewStore)
    (sKey sVal pKey pVal : String) (t0 tS tS2 tSin tP tP2 tPin : Nat)
    (hS : t0 + SUMMARY_CACHE_DURATION_MS < tS)
    (hSin : tSin ≤ t0 + SUMMARY_CACHE_DURATION_MS)
    (hP : t0 + PREVIEW_CACHE_DURATION_MS < tP)
    (hPin : tPin ≤ t0 + PREVIEW_CACHE_DURATION_MS) :
    (getCachedSummary (cacheSummary sStore sKey sVal t0) sKey tS).1 = none ∧
    List.lookup sKey (getCachedSummary (cacheSummary sStore sKey sVal t0) sKey tS).2 = none ∧
    getCachedSummary (getCachedSummary (cacheSummary sStore sKey sVal t0) sKey tS).2 sKey tS2 =
      (none, (getCachedSummary (cacheSummary sStore sKey sVal t0) sKey tS).2) ∧
    getCachedSummary (cacheSummary sStore sKey sVal t0) sKey tSin =
      (some sVal, cacheSummary sStore sKey sVal t0) ∧
    (getCachedPreview (cachePreview pStore pKey pVal t0) pKey tP).1 = none ∧
    List.lookup pKey (getCachedPreview (cachePreview pStore pKey pVal t0) pKey tP).2 = none ∧
    getCachedPreview (getCachedPreview (cachePreview pStore pKey pVal t0) pKey tP).2 pKey tP2 =
      (none, (getCachedPreview (cachePreview pStore pKey pVal t0) pKey tP).2) ∧
    getCachedPreview (cachePreview pStore pKey pVal t0) pKey tPin =
      (some pVal, cachePreview pStore pKey pVal t0) := by
  have hs1 : List.lookup sKey (cacheSummary sStore sKey sVal t0) =
      some ⟨sVal, t0⟩ := by simp [cacheSummary, List.lookup]
  have hp1 : List.lookup pKey (cachePreview pStore pKey pVal t0) =
      some ⟨pVal, t0⟩ := by simp [cachePreview, List.lookup]
  have hreadS : getCachedSummary (cacheSummary sStore sKey sVal t0) sKey tS =
      (none, (cacheSummary sStore sKey sVal t0).filter fun p => p.1 ≠ sKey) := by
    simp [getCachedSummary, hs1, hS]
  have hreadP : getCachedPreview (cachePreview pStore pKey pVal t0) pKey tP =
      (none, (cachePreview pStore pKey pVal t0).filter fun p => p.1 ≠ pKey) := by
    simp [getCachedPreview, hp1, hP]
  have hgoneS := lookup_filter_self sKey (cacheSummary sStore sKey sVal t0)
  have hgoneP := lookup_filter_self pKey (cachePreview pStore pKey pVal t0)
  have hnS : ¬ (t0 + SUMMARY_CACHE_DURATION_MS < tSin) := by omega
  have hnP : ¬ (t0 + PREVIEW_CACHE_DURATION_MS < tPin) := by omega
  refine ⟨by rw [hreadS], ?_, ?_, ?_, by rw [hreadP], ?_, ?_, ?_⟩
  · rw [hreadS]; exact hgoneS
  · rw [hreadS]
    simp only [ne_eq, decide_not] at hgoneS
    simp [getCachedSummary, hgoneS]
  · simp [getCachedSummary, hs1, hnS]
  · rw [hreadP]; exact hgoneP
  · rw [hreadP]
    simp only [ne_eq, decide_not] at hgoneP
    simp [getCachedPreview, hgoneP]
  · simp [getCachedPreview, hp1, hnP]

/-- Claim C7, witness with both stores empty, storing at time 0 and
reading around the two TTLs. -/
theorem claim_C7_witness :
    getCachedSummary (cacheSummary [] "k1" "v1" 0) "k1" 600000 =
      (some "v1", cacheSummary [] "k1" "v1" 0) ∧
    (getCachedSummary (cacheSummary [] "k1" "v1" 0) "k1" 600001).1 = none ∧
    getCachedPreview (cachePreview [] "k2" "v2" 0) "k2" 300000 =
      (some "v2", cachePreview [] "k2" "v2" 0) ∧
    (getCachedPreview (cachePreview [] "k2" "v2" 0) "k2" 300001).1 = none := by
  have h := claim_C7 [] [] "k1" "v1" "k2" "v2" 0 600001 700000 600000 300001 400000 300000
    (by decide) (by decide) (by decide) (by decide)
  exact ⟨h.2.2.2.1, h.1, h.2.2.2.2.2.2.2, h.2.2.2.2.1⟩

/-- Claim C8, corrected: the asynchronous continuations of the
text-summary and purpose-summary pipelines (cache read and response
callback, the latter consuming the preview capture) are no-ops when the
target has left the document; the image-recognition response callback has
no such guard (see the counterexample). -/
theorem claim_C8 (cached dataUrl lastError : Option String) (resp : Option BrokerResponse) :
    textHoverAfterCache false cached = .noop ∧
    textHoverOnResponse false lastError resp = .noop ∧
    previewHoverAfterCache false cached dataUrl = .noop ∧
    previewHoverOnResponse false lastError resp dataUrl = .noop := by
  refine ⟨?_, ?_, ?_, ?_⟩ <;>
    simp [textHoverAfterCache, textHoverOnResponse, previewHoverAfterCache,
      previewHoverOnResponse]

/-- A successful OCR broker response used by the staleness
counterexample. -/
def okOcrResponse : BrokerResponse :=
  { success := true, result := some "Recognized text from the image",
    error := none, errorCode := none, usageInfo := some ⟨"free", 100, 99, 1⟩ }

/-- Claim C8, counterexample to the original statement: the
image-recognition response callback renders a tooltip even when the
target element is detached. -/
theorem claim_C8_counterexample :
    imageHoverOnResponse false none (some okOcrResponse) ≠ HoverStep.noop := by
  decide

/-- Claim C9, corrected: `showTooltip` removes the tracked hover tooltip
and a fixed context-menu tooltip before appending, so from any state with
at most one fixed tooltip it leaves exactly one tooltip visible. -/
theorem claim_C9 (s : TooltipDom) (hfix : s.fixedCount ≤ 1) :
    visibleTooltips (applyTooltipOp s .show) = 1 := by
  simp [applyTooltipOp, visibleTooltips]
  omega

/-- Claim C9, witness at a state with one hover and one fixed tooltip. -/
theorem claim_C9_witness : visibleTooltips (applyTooltipOp ⟨true, 1⟩ .show) = 1 :=
  claim_C9 ⟨true, 1⟩ (by decide)

/-- Claim C9, counterexample to the original statement: after a hover
tooltip is shown, the context-menu path appends its tooltip without
removing the hover one, reaching a state with two visible tooltips. -/
theorem claim_C9_counterexample :
    visibleTooltips (runTooltipOps ⟨false, 0⟩ [.show, .contextShow]) = 2 := by
  decide

end AITooltip
